import Mathlib

/-!
Verification of the remote-image resolution component
(`pkg/fanal/image/remote.go`): credential selection, wildcard platform
resolution against a manifest index, remote fetch orchestration, and
reference identity normalization (`repositoryName`, `RepoTags`,
`RepoDigests`).

Strings are embedded as Lean `String`s; the Go standard-library string
helpers used by the code (`strings.HasPrefix`, `strings.TrimPrefix`) are
translated below over the character data of the string.  Network effects
are embedded as an explicit registry environment (`RegistryEnv`) recording
the outcome of the index fetch, the descriptor fetch and the image
materialization; error values form an explicit tree so that wrapping with
context is observable.
-/

/-- Go `strings.HasPrefix s pre`: `pre` is a prefix of `s`. -/
def hasPrefix (s pre : String) : Bool :=
  pre.data.isPrefixOf s.data

/-- Go `strings.TrimPrefix s pre`: removes `pre` from the front of `s` exactly
once when present, otherwise returns `s` unchanged. -/
def trimPrefix (s pre : String) : String :=
  if hasPrefix s pre then { data := s.data.drop pre.data.length } else s

/-- The well-known default registry domain, `name.DefaultRegistry` of the
registry-client library. -/
def DefaultRegistry : String := "index.docker.io"

/-- A parsed image reference: registry domain, repository path, and an
optional tag (`name.Tag` case of `name.Reference`; digest references carry
no tag).  The registry client validates tags on construction, so a present
tag is never the empty string. -/
structure ImageReference where
  registry : String
  repository : String
  tag : Option String
deriving DecidableEq

/-- A platform constraint: `v1.Platform` restricted to the fields the code
reads and writes. -/
structure Platform where
  os : String
  architecture : String
  variant : String
deriving DecidableEq

/-- Error values: either a raw error produced by a collaborator, or an error
wrapped with operation-name context (`xerrors.Errorf("...: %w", err)`). -/
inductive Err where
  | raw (msg : String)
  | wrap (ctx : String) (e : Err)
deriving DecidableEq

/-- Whether an error carries at least one layer of wrapping context. -/
def Err.isWrapped : Err → Bool
  | Err.wrap _ _ => true
  | Err.raw _ => false

/-- The option bundle `types.DockerOption`, restricted to the recognized
fields the resolution pipeline reads. -/
structure DockerOption where
  UserName : String
  Password : String
  RegistryToken : String
  InsecureSkipTLSVerify : Bool
  Platform : String
deriving DecidableEq

/-- Basic-auth credential pair, `authn.Basic`. -/
structure BasicAuth where
  Username : String
  Password : String
deriving DecidableEq

/-- Modelled from the spec: `token.GetToken` (package
`pkg/fanal/image/token`, not under `src/`).  Per §4.1 the resolver derives
the basic credential it tests from the option bundle's `Username`/`Password`
fields; cloud-specific token exchange is out of scope, so the lookup is the
passthrough of those two fields. -/
def GetToken (domain : String) (option : DockerOption) : BasicAuth :=
  { Username := option.UserName, Password := option.Password }

/-- The credential selected for the fetch: the tagged union of §3. -/
inductive Credential where
  | basic (username password : String)
  | bearer (token : String)
  | keychain
deriving DecidableEq

/-- A connection option passed to the registry client (`remote.Option`). -/
inductive RemoteOption where
  | withTransport
  | withPlatform (p : Platform)
  | withAuthBasic (username password : String)
  | withAuthBearer (token : String)
  | withAuthDefaultKeychain
deriving DecidableEq

/-- One entry of a manifest index: the code reads only its optional
platform record. -/
structure ManifestDescriptor where
  platform : Option Platform
deriving DecidableEq

/-- A manifest index (`v1.IndexManifest`): its list of manifest entries. -/
structure IndexManifest where
  manifests : List ManifestDescriptor
deriving DecidableEq

/-- Outcome of `remote.Index(ref)` followed by `index.IndexManifest()`:
the fetch can fail with the legacy schema-1 error, fail with any other
error, or succeed with an index whose manifest reading itself either fails
or yields an `IndexManifest`. -/
inductive IndexFetchResult where
  | errSchema1
  | errOther (e : Err)
  | fetched (manifestResult : Except Err IndexManifest)

/-- The descriptor returned by `remote.Get`: the code reads only its
content digest. -/
structure Descriptor where
  digest : String
deriving DecidableEq

/-- The registry as the pipeline observes it for one reference: the outcome
of the index fetch (performed with the reference alone — the code passes no
options to `remote.Index`), and the outcomes of `remote.Get` and
`desc.Image()` as functions of the connection options supplied. -/
structure RegistryEnv where
  index : IndexFetchResult
  get : List RemoteOption → Except Err Descriptor
  image : Descriptor → Except Err Unit

/-- The resolved entity `remoteImage`: display name, image handle
(opaque here), original reference, and fetched descriptor. -/
structure RemoteImage where
  name : String
  image : Unit
  ref : ImageReference
  descriptor : Descriptor
deriving DecidableEq

/-- Outcome of a Go call that can return a value, return an error, or crash
on a nil-pointer dereference. -/
inductive GoResult (α : Type) where
  | ok (a : α)
  | err (e : Err)
  | nilPanic
deriving DecidableEq

/-- Splitting a character sequence at every `/`, the list-level counterpart
of Go `strings.Split(s, "/")`: the empty sequence yields one empty field. -/
def splitSlash : List Char → List (List Char)
  | [] => [[]]
  | c :: rest =>
    let r := splitSlash rest
    if c = '/' then [] :: r
    else
      match r with
      | [] => [[c]]
      | h :: t => (c :: h) :: t

/-- Modelled from the spec: `v1.ParsePlatform` of the external
registry-client library (not part of this repository).  Per §4.2 a
non-wildcard input is parsed directly into a concrete
(OS, architecture[, variant]) tuple by splitting on `/`; malformed strings
(too many components) are a hard parse error. -/
def ParsePlatform (s : String) : Except Err Platform :=
  match (splitSlash s.data).map String.mk with
  | [os] => Except.ok { os := os, architecture := "", variant := "" }
  | [os, arch] => Except.ok { os := os, architecture := arch, variant := "" }
  | [os, arch, variant] => Except.ok { os := os, architecture := arch, variant := variant }
  | _ => Except.error (Err.raw ("too many slashes in platform spec: " ++ s))

/-- The tail of `parsePlatform`: every path that does not return early falls
through to `v1.ParsePlatform(p)`, whose error is wrapped as
`platform parse error`. -/
def finishParsePlatform (p : String) : Except Err (Option Platform) :=
  match ParsePlatform p with
  | Except.ok platform => Except.ok (some platform)
  | Except.error e => Except.error (Err.wrap "platform parse error" e)

/-- `parsePlatform(ref, p)`: when `p` has the OS wildcard shape `*/...`,
resolve the wildcard against the manifest index; legacy-schema failures and
empty manifest lists yield no constraint and no error, other index failures
are wrapped hard errors, and a first entry carrying a platform record has
its OS substituted for the `*`.  All remaining paths parse the (possibly
rewritten) string. -/
def parsePlatform (env : RegistryEnv) (p : String) : Except Err (Option Platform) :=
  if hasPrefix p "*/" then
    match env.index with
    | IndexFetchResult.errSchema1 => Except.ok none
    | IndexFetchResult.errOther e => Except.error (Err.wrap "remote index error" e)
    | IndexFetchResult.fetched (Except.error e) =>
        Except.error (Err.wrap "remote index manifest error" e)
    | IndexFetchResult.fetched (Except.ok m) =>
        if m.manifests.length = 0 then Except.ok none
        else
          finishParsePlatform
            (match m.manifests with
             | [] => p
             | d :: _ =>
               match d.platform with
               | some pl => pl.os ++ trimPrefix p "*"
               | none => p)
  else
    finishParsePlatform p

/-- Credential selection of `tryRemote`: basic when the looked-up pair has
both fields non-empty, else bearer when a registry token is set, else the
default keychain. -/
def selectCredential (domain : String) (option : DockerOption) : Credential :=
  let auth := GetToken domain option
  if auth.Username ≠ "" ∧ auth.Password ≠ "" then
    Credential.basic auth.Username auth.Password
  else if option.RegistryToken ≠ "" then
    Credential.bearer option.RegistryToken
  else
    Credential.keychain

/-- The connection option realizing a selected credential. -/
def credentialOption : Credential → RemoteOption
  | Credential.basic u p => RemoteOption.withAuthBasic u p
  | Credential.bearer t => RemoteOption.withAuthBearer t
  | Credential.keychain => RemoteOption.withAuthDefaultKeychain

/-- The option-assembly phase of `tryRemote`: TLS transport option, then the
platform option (`remote.WithPlatform(*s)` dereferences the pointer returned
by `parsePlatform`, so the `nil, nil` not-multi-arch outcome is a nil-pointer
dereference here), then the credential option. -/
def buildRemoteOpts (env : RegistryEnv) (ref : ImageReference) (option : DockerOption) :
    GoResult (List RemoteOption) :=
  let remoteOpts : List RemoteOption :=
    if option.InsecureSkipTLSVerify then [RemoteOption.withTransport] else []
  let afterPlatform : GoResult (List RemoteOption) :=
    if option.Platform ≠ "" then
      match parsePlatform env option.Platform with
      | Except.error e => GoResult.err e
      | Except.ok none => GoResult.nilPanic
      | Except.ok (some s) => GoResult.ok (remoteOpts ++ [RemoteOption.withPlatform s])
    else GoResult.ok remoteOpts
  match afterPlatform with
  | GoResult.err e => GoResult.err e
  | GoResult.nilPanic => GoResult.nilPanic
  | GoResult.ok opts =>
      GoResult.ok (opts ++ [credentialOption (selectCredential ref.registry option)])

/-- `tryRemote`: assemble the options, perform `remote.Get`, materialize the
image with `desc.Image()`, and wrap the result as a `remoteImage`.  The two
fetch-step errors are returned to the caller as-is. -/
def tryRemote (env : RegistryEnv) (imageName : String) (ref : ImageReference)
    (option : DockerOption) : GoResult RemoteImage :=
  match buildRemoteOpts env ref option with
  | GoResult.err e => GoResult.err e
  | GoResult.nilPanic => GoResult.nilPanic
  | GoResult.ok remoteOpts =>
    match env.get remoteOpts with
    | Except.error e => GoResult.err e
    | Except.ok desc =>
      match env.image desc with
      | Except.error e => GoResult.err e
      | Except.ok img =>
          GoResult.ok { name := imageName, image := img, ref := ref, descriptor := desc }

/-- `implicitReference.TagName`: the tag string when the reference is a tag
reference, the empty string otherwise. -/
def TagName (r : ImageReference) : String :=
  match r.tag with
  | some t => t
  | none => ""

/-- `implicitReference.RepositoryName`: registry-qualified repository path,
except that the default registry's domain is omitted and its implicit
`library/` namespace trimmed. -/
def RepositoryName (r : ImageReference) : String :=
  if r.registry ≠ DefaultRegistry then r.registry ++ "/" ++ r.repository
  else trimPrefix r.repository "library/"

/-- `remoteImage.RepoTags`. -/
def RepoTags (img : RemoteImage) : List String :=
  let tag := TagName img.ref
  if tag = "" then []
  else [RepositoryName img.ref ++ ":" ++ tag]

/-- `remoteImage.RepoDigests`. -/
def RepoDigests (img : RemoteImage) : List String :=
  [RepositoryName img.ref ++ "@" ++ img.descriptor.digest]

/-- The platform constraints appearing in an assembled option list. -/
def platformOpts : List RemoteOption → List Platform
  | [] => []
  | RemoteOption.withPlatform p :: rest => p :: platformOpts rest
  | _ :: rest => platformOpts rest

/-! Basic facts about the string helpers. -/

theorem hasPrefix_append (pre rest : String) : hasPrefix (pre ++ rest) pre = true := by
  simp [hasPrefix, String.data_append]

theorem trimPrefix_append (pre rest : String) : trimPrefix (pre ++ rest) pre = rest := by
  simp only [trimPrefix, hasPrefix_append, if_true, String.data_append]
  rw [List.drop_left]

theorem trimPrefix_of_no_match (s pre : String) (h : hasPrefix s pre = false) :
    trimPrefix s pre = s := by
  simp [trimPrefix, h]

theorem trimPrefix_star_of_wildcard (arch : String) :
    trimPrefix ("*/" ++ arch) "*" = "/" ++ arch := by
  have h : ("*/" : String) ++ arch = "*" ++ ("/" ++ arch) := by
    rw [← String.append_assoc]
    rfl
  rw [h, trimPrefix_append]

/-! Shared sample data for concrete evaluations. -/

/-- An environment whose descriptor fetch and image materialization always
succeed, with a chosen index-fetch outcome. -/
def sampleEnv (idx : IndexFetchResult) : RegistryEnv :=
  { index := idx,
    get := fun _ => Except.ok { digest := "sha256:aaaa" },
    image := fun _ => Except.ok () }

/-- The tag reference `docker.io/library/alpine:3.18` after parsing. -/
def alpineRef : ImageReference :=
  { registry := "index.docker.io", repository := "library/alpine", tag := some "3.18" }

/-- An option bundle with no credentials, default TLS policy, and no
platform request. -/
def anonymousOption : DockerOption :=
  { UserName := "", Password := "", RegistryToken := "",
    InsecureSkipTLSVerify := false, Platform := "" }

/-- C1: `repositoryName()` prepends the registry domain for every
non-default registry; for the default registry the domain is not prepended
and a leading `library/` prefix, when present, is stripped exactly once
(the result keeps everything after the first `library/`, including any
repeated occurrence). -/
theorem repositoryName_default_registry_spec (r : ImageReference) :
    (r.registry ≠ DefaultRegistry →
        RepositoryName r = r.registry ++ "/" ++ r.repository) ∧
    (r.registry = DefaultRegistry →
        (∀ rest, r.repository = "library/" ++ rest → RepositoryName r = rest) ∧
        (hasPrefix r.repository "library/" = false → RepositoryName r = r.repository)) := by
  refine ⟨fun h => ?_, fun h => ⟨fun rest hrest => ?_, fun hp => ?_⟩⟩
  · simp [RepositoryName, h]
  · simp [RepositoryName, h, hrest, trimPrefix_append]
  · simp [RepositoryName, h, trimPrefix_of_no_match _ _ hp]

/-- C1 witness: `docker.io/library/alpine` yields `alpine`. -/
theorem repositoryName_default_registry_witness :
    RepositoryName alpineRef = "alpine" :=
  ((repositoryName_default_registry_spec alpineRef).2 rfl).1 "alpine" rfl

/-- C2: credential selection, first match wins: both `Username` and
`Password` non-empty selects basic auth; otherwise a non-empty
`RegistryToken` selects bearer auth; otherwise the default keychain is
consulted. -/
theorem credential_precedence_spec (domain : String) (option : DockerOption) :
    (option.UserName ≠ "" → option.Password ≠ "" →
        selectCredential domain option =
          Credential.basic option.UserName option.Password) ∧
    ((option.UserName = "" ∨ option.Password = "") → option.RegistryToken ≠ "" →
        selectCredential domain option = Credential.bearer option.RegistryToken) ∧
    ((option.UserName = "" ∨ option.Password = "") → option.RegistryToken = "" →
        selectCredential domain option = Credential.keychain) := by
  refine ⟨fun hu hp => ?_, fun hup ht => ?_, fun hup ht => ?_⟩
  · simp [selectCredential, GetToken, hu, hp]
  · have hno : ¬(option.UserName ≠ "" ∧ option.Password ≠ "") := by
      rcases hup with h | h <;> simp [h]
    simp [selectCredential, GetToken, hno, ht]
  · have hno : ¬(option.UserName ≠ "" ∧ option.Password ≠ "") := by
      rcases hup with h | h <;> simp [h]
    simp [selectCredential, GetToken, hno, ht]

/-- C2 witness: with `Username`, `Password` and `RegistryToken` all set,
basic auth is selected. -/
theorem credential_precedence_witness :
    selectCredential "example.com"
      { UserName := "user", Password := "pass", RegistryToken := "tok",
        InsecureSkipTLSVerify := false, Platform := "" } =
      Credential.basic "user" "pass" :=
  (credential_precedence_spec "example.com"
      { UserName := "user", Password := "pass", RegistryToken := "tok",
        InsecureSkipTLSVerify := false, Platform := "" }).1
    (by decide) (by decide)

/-- C3: for a wildcard input, an index whose manifest list is non-empty and
whose first entry carries a platform record has that entry's OS substituted
for the `*`; later entries play no role, so the first entry is used
deterministically. -/
theorem wildcard_substitutes_first_os (env : RegistryEnv) (arch : String)
    (m : IndexManifest) (d : ManifestDescriptor) (rest : List ManifestDescriptor)
    (pl : Platform)
    (hidx : env.index = IndexFetchResult.fetched (Except.ok m))
    (hm : m.manifests = d :: rest) (hd : d.platform = some pl) :
    parsePlatform env ("*/" ++ arch) = finishParsePlatform (pl.os ++ "/" ++ arch) := by
  simp only [parsePlatform, hasPrefix_append, if_true, hidx, hm, hd,
    trimPrefix_star_of_wildcard, List.length_cons]
  rw [if_neg (by simp), ← String.append_assoc]

/-- C3 witness: `*/arm64` against an index whose first entry has OS
`linux` resolves to the constraint `linux/arm64`. -/
theorem wildcard_substitutes_first_os_witness :
    parsePlatform
      (sampleEnv (IndexFetchResult.fetched (Except.ok
        { manifests :=
            [{ platform := some { os := "linux", architecture := "arm64", variant := "" } },
             { platform := some { os := "windows", architecture := "amd64", variant := "" } }] })))
      "*/arm64" =
      Except.ok (some { os := "linux", architecture := "arm64", variant := "" }) := by
  have h := wildcard_substitutes_first_os
    (sampleEnv (IndexFetchResult.fetched (Except.ok
      { manifests :=
          [{ platform := some { os := "linux", architecture := "arm64", variant := "" } },
           { platform := some { os := "windows", architecture := "amd64", variant := "" } }] })))
    "arm64"
    { manifests :=
        [{ platform := some { os := "linux", architecture := "arm64", variant := "" } },
         { platform := some { os := "windows", architecture := "amd64", variant := "" } }] }
    { platform := some { os := "linux", architecture := "arm64", variant := "" } }
    [{ platform := some { os := "windows", architecture := "amd64", variant := "" } }]
    { os := "linux", architecture := "arm64", variant := "" }
    rfl rfl rfl
  rw [show ("*/arm64" : String) = "*/" ++ "arm64" from rfl, h]
  rfl

/-- C4: for a wildcard input, a legacy schema-1 index fetch failure and an
empty manifest list both yield no constraint and no error, while any other
index failure — the fetch itself or reading its manifest — is a hard error
wrapped with context. -/
theorem wildcard_not_multiarch_fallback (p : String) (hp : hasPrefix p "*/" = true) :
    (∀ env : RegistryEnv, env.index = IndexFetchResult.errSchema1 →
        parsePlatform env p = Except.ok none) ∧
    (∀ (env : RegistryEnv) (m : IndexManifest),
        env.index = IndexFetchResult.fetched (Except.ok m) → m.manifests = [] →
        parsePlatform env p = Except.ok none) ∧
    (∀ (env : RegistryEnv) (e : Err), env.index = IndexFetchResult.errOther e →
        parsePlatform env p = Except.error (Err.wrap "remote index error" e)) ∧
    (∀ (env : RegistryEnv) (e : Err),
        env.index = IndexFetchResult.fetched (Except.error e) →
        parsePlatform env p = Except.error (Err.wrap "remote index manifest error" e)) := by
  refine ⟨fun env hidx => ?_, fun env m hidx hm => ?_, fun env e hidx => ?_,
    fun env e hidx => ?_⟩ <;>
    simp [parsePlatform, hp, hidx]
  simp [hm]

/-- C4 witness: `*/amd64` against a legacy single-manifest image resolves
to no constraint with no error. -/
theorem wildcard_not_multiarch_fallback_witness :
    parsePlatform (sampleEnv IndexFetchResult.errSchema1) "*/amd64" = Except.ok none :=
  (wildcard_not_multiarch_fallback "*/amd64" (by decide)).1
    (sampleEnv IndexFetchResult.errSchema1) rfl

/-- C9: for a wildcard input, a non-empty manifest list whose first entry
carries no platform record leaves the string untouched: the raw wildcard is
handed to platform parsing, with OS `*` literal — neither the no-constraint
fallback nor a concrete-OS substitution. -/
theorem wildcard_nil_platform_passthrough (env : RegistryEnv) (p : String)
    (hp : hasPrefix p "*/" = true) (m : IndexManifest) (d : ManifestDescriptor)
    (rest : List ManifestDescriptor)
    (hidx : env.index = IndexFetchResult.fetched (Except.ok m))
    (hm : m.manifests = d :: rest) (hd : d.platform = none) :
    parsePlatform env p = finishParsePlatform p := by
  simp [parsePlatform, hp, hidx, hm, hd]

/-- C9 witness: `*/arm64` against an index whose first entry has no
platform record parses to the literal constraint with OS `*`. -/
theorem wildcard_nil_platform_passthrough_witness :
    parsePlatform
      (sampleEnv (IndexFetchResult.fetched (Except.ok
        { manifests := [{ platform := none }] })))
      "*/arm64" =
      Except.ok (some { os := "*", architecture := "arm64", variant := "" }) := by
  have h := wildcard_nil_platform_passthrough
    (sampleEnv (IndexFetchResult.fetched (Except.ok
      { manifests := [{ platform := none }] })))
    "*/arm64" (by decide)
    { manifests := [{ platform := none }] }
    { platform := none } [] rfl rfl rfl
  rw [h]
  rfl

/-- C5: every image produced by a successful resolution reports exactly one
repo digest, `repositoryName@digest`, and the digest is the one carried by
the descriptor that the fetch step returned. -/
theorem repoDigests_single_descriptor_digest (env : RegistryEnv) (n : String)
    (ref : ImageReference) (option : DockerOption) (img : RemoteImage)
    (h : tryRemote env n ref option = GoResult.ok img) :
    RepoDigests img = [RepositoryName img.ref ++ "@" ++ img.descriptor.digest] ∧
    (RepoDigests img).length = 1 ∧
    ∃ opts, env.get opts = Except.ok img.descriptor := by
  refine ⟨rfl, rfl, ?_⟩
  unfold tryRemote at h
  split at h
  · exact absurd h (by simp)
  · exact absurd h (by simp)
  · split at h
    · exact absurd h (by simp)
    · split at h
      · exact absurd h (by simp)
      · injection h with h2
        subst h2
        exact ⟨_, by assumption⟩

/-- C5 witness: a concrete successful resolution yields the single digest
string built from the fetched descriptor. -/
theorem repoDigests_single_descriptor_digest_witness :
    ∃ opts,
      (sampleEnv IndexFetchResult.errSchema1).get opts =
        Except.ok ({ digest := "sha256:aaaa" } : Descriptor) :=
  (repoDigests_single_descriptor_digest (sampleEnv IndexFetchResult.errSchema1)
      "alpine" alpineRef anonymousOption
      { name := "alpine", image := (), ref := alpineRef,
        descriptor := { digest := "sha256:aaaa" } }
      rfl).2.2

/-- C6: a reference with no tag component yields no repo tags; a reference
carrying tag `t` (tags are non-empty by construction in the registry
client) yields exactly `repositoryName:t`. -/
theorem repoTags_tag_presence (img : RemoteImage) :
    (img.ref.tag = none → RepoTags img = []) ∧
    (∀ t, img.ref.tag = some t → t ≠ "" →
        RepoTags img = [RepositoryName img.ref ++ ":" ++ t]) := by
  refine ⟨fun h => ?_, fun t ht hne => ?_⟩
  · simp [RepoTags, TagName, h]
  · simp [RepoTags, TagName, ht, hne]

/-- C6 witness: `docker.io/library/alpine:3.18` yields exactly
`alpine:3.18`. -/
theorem repoTags_tag_presence_witness :
    RepoTags
      { name := "alpine", image := (), ref := alpineRef,
        descriptor := { digest := "sha256:aaaa" } } = ["alpine:3.18"] := by
  have h := (repoTags_tag_presence
    { name := "alpine", image := (), ref := alpineRef,
      descriptor := { digest := "sha256:aaaa" } }).2 "3.18" rfl (by decide)
  rw [h]
  rfl

/-- Auxiliary computation rules for the platform constraints recorded in an
option list. -/
theorem platformOpts_append (l₁ l₂ : List RemoteOption) :
    platformOpts (l₁ ++ l₂) = platformOpts l₁ ++ platformOpts l₂ := by
  induction l₁ with
  | nil => rfl
  | cons o rest ih => cases o <;> simp [platformOpts, ih]

theorem platformOpts_transport (b : Bool) :
    platformOpts (if b then [RemoteOption.withTransport] else []) = [] := by
  cases b <;> rfl

theorem platformOpts_credential (c : Credential) :
    platformOpts [credentialOption c] = [] := by
  cases c <;> rfl

/-- C7: with an empty platform string the pipeline applies no platform
constraint and raises no platform error — the assembled options always come
back successfully and contain no platform option — and performs no index
fetch: the outcome is the same under any two registries that agree on the
fetch and materialization steps, however their index fetch behaves. -/
theorem empty_platform_no_constraint_no_fetch (n : String) (ref : ImageReference)
    (option : DockerOption) (hp : option.Platform = "") :
    (∀ env₁ env₂ : RegistryEnv, env₁.get = env₂.get → env₁.image = env₂.image →
        tryRemote env₁ n ref option = tryRemote env₂ n ref option) ∧
    (∀ env : RegistryEnv, ∃ opts,
        buildRemoteOpts env ref option = GoResult.ok opts ∧ platformOpts opts = []) := by
  constructor
  · intro env₁ env₂ hget himage
    unfold tryRemote buildRemoteOpts
    simp only [hp, ne_eq, not_true_eq_false, if_false, hget, himage]
  · intro env
    refine ⟨(if option.InsecureSkipTLSVerify then [RemoteOption.withTransport] else []) ++
      [credentialOption (selectCredential ref.registry option)], ?_, ?_⟩
    · unfold buildRemoteOpts
      simp only [hp, ne_eq, not_true_eq_false, if_false]
    · rw [platformOpts_append, platformOpts_transport, platformOpts_credential]
      rfl

/-- C7 witness: with an empty platform string, two registries that differ
arbitrarily in their index-fetch behavior resolve identically. -/
theorem empty_platform_no_constraint_no_fetch_witness :
    tryRemote (sampleEnv IndexFetchResult.errSchema1) "alpine" alpineRef anonymousOption =
      tryRemote (sampleEnv (IndexFetchResult.errOther (Err.raw "index fetch refused")))
        "alpine" alpineRef anonymousOption :=
  (empty_platform_no_constraint_no_fetch "alpine" alpineRef anonymousOption rfl).1
    (sampleEnv IndexFetchResult.errSchema1)
    (sampleEnv (IndexFetchResult.errOther (Err.raw "index fetch refused"))) rfl rfl

/-- An environment whose descriptor fetch fails with a raw transport
error. -/
def getFailEnv : RegistryEnv :=
  { index := IndexFetchResult.errSchema1,
    get := fun _ => Except.error (Err.raw "connection refused"),
    image := fun _ => Except.ok () }

/-- C8 counterexample: a failure of the remote fetch is returned to the
caller exactly as produced, carrying no operation-name wrapping. -/
theorem fetch_error_returned_unwrapped_cex :
    tryRemote getFailEnv "alpine" alpineRef anonymousOption =
      GoResult.err (Err.raw "connection refused") ∧
    Err.isWrapped (Err.raw "connection refused") = false := by
  exact ⟨rfl, rfl⟩

/-- C8 amended: errors arising while resolving a wildcard platform — the
index fetch, reading the index manifest, and platform parsing — are wrapped
with operation-name context, and nothing is swallowed except the
not-multi-arch fallback; but the errors of the remote fetch (`remote.Get`)
and of image materialization (`desc.Image`) are returned to the caller
verbatim, without wrapping. -/
theorem error_wrapping_policy :
    (∀ (env : RegistryEnv) (e : Err) (p : String), hasPrefix p "*/" = true →
        env.index = IndexFetchResult.errOther e →
        parsePlatform env p = Except.error (Err.wrap "remote index error" e)) ∧
    (∀ (env : RegistryEnv) (e : Err) (p : String), hasPrefix p "*/" = true →
        env.index = IndexFetchResult.fetched (Except.error e) →
        parsePlatform env p = Except.error (Err.wrap "remote index manifest error" e)) ∧
    (∀ (env : RegistryEnv) (p : String) (e : Err), hasPrefix p "*/" = false →
        ParsePlatform p = Except.error e →
        parsePlatform env p = Except.error (Err.wrap "platform parse error" e)) ∧
    (∀ (env : RegistryEnv) (n : String) (ref : ImageReference) (option : DockerOption)
        (opts : List RemoteOption) (e : Err),
        buildRemoteOpts env ref option = GoResult.ok opts →
        env.get opts = Except.error e →
        tryRemote env n ref option = GoResult.err e) ∧
    (∀ (env : RegistryEnv) (n : String) (ref : ImageReference) (option : DockerOption)
        (opts : List RemoteOption) (desc : Descriptor) (e : Err),
        buildRemoteOpts env ref option = GoResult.ok opts →
        env.get opts = Except.ok desc →
        env.image desc = Except.error e →
        tryRemote env n ref option = GoResult.err e) := by
  refine ⟨fun env e p hp hidx => ?_, fun env e p hp hidx => ?_,
    fun env p e hp hparse => ?_, fun env n ref option opts e hb hg => ?_,
    fun env n ref option opts desc e hb hg hi => ?_⟩
  · simp [parsePlatform, hp, hidx]
  · simp [parsePlatform, hp, hidx]
  · simp [parsePlatform, hp, finishParsePlatform, hparse]
  · unfold tryRemote
    simp only [hb, hg]
  · unfold tryRemote
    simp only [hb, hg, hi]

/-- C8 amended witness: the raw transport failure of `remote.Get` reaches
the caller unchanged. -/
theorem error_wrapping_policy_witness :
    tryRemote getFailEnv "alpine" alpineRef anonymousOption =
      GoResult.err (Err.raw "connection refused") :=
  error_wrapping_policy.2.2.2.1 getFailEnv "alpine" alpineRef anonymousOption
    [RemoteOption.withAuthDefaultKeychain] (Err.raw "connection refused") rfl rfl

/-- The image of a `GoResult` under a pure function. -/
def goMap {α β : Type} (f : α → β) : GoResult α → GoResult β
  | GoResult.ok a => GoResult.ok (f a)
  | GoResult.err e => GoResult.err e
  | GoResult.nilPanic => GoResult.nilPanic

/-- C10: the platform constraints among the assembled connection options —
and any error or crash of the platform-resolution phase — depend only on
the platform string of the option bundle: two bundles agreeing on
`Platform` but differing in `Username`, `Password`, `RegistryToken` or
`InsecureSkipTLSVerify` produce the same platform constraints against the
same registry, whose index fetch itself receives no option at all. -/
theorem platform_resolution_credential_independence (env : RegistryEnv)
    (ref : ImageReference) (o₁ o₂ : DockerOption) (h : o₁.Platform = o₂.Platform) :
    goMap platformOpts (buildRemoteOpts env ref o₁) =
      goMap platformOpts (buildRemoteOpts env ref o₂) := by
  unfold buildRemoteOpts
  rw [h]
  by_cases hp : o₂.Platform = ""
  · simp only [hp, ne_eq, not_true_eq_false, if_false, goMap,
      platformOpts_append, platformOpts_transport, platformOpts_credential]
  · simp only [ne_eq, hp, not_false_eq_true, if_true]
    rcases parsePlatform env o₂.Platform with e | s
    · rfl
    · rcases s with _ | pl
      · rfl
      · simp only [goMap, platformOpts_append, platformOpts_transport,
          platformOpts_credential, List.nil_append, List.append_nil]

/-- C10 witness: two bundles requesting `*/arm64`, one anonymous with TLS
verification and one with basic credentials, a bearer token and TLS
verification disabled, yield identical platform constraints. -/
theorem platform_resolution_credential_independence_witness :
    goMap platformOpts
        (buildRemoteOpts (sampleEnv IndexFetchResult.errSchema1) alpineRef
          { UserName := "", Password := "", RegistryToken := "",
            InsecureSkipTLSVerify := false, Platform := "*/arm64" }) =
      goMap platformOpts
        (buildRemoteOpts (sampleEnv IndexFetchResult.errSchema1) alpineRef
          { UserName := "user", Password := "pass", RegistryToken := "tok",
            InsecureSkipTLSVerify := true, Platform := "*/arm64" }) :=
  platform_resolution_credential_independence (sampleEnv IndexFetchResult.errSchema1)
    alpineRef
    { UserName := "", Password := "", RegistryToken := "",
      InsecureSkipTLSVerify := false, Platform := "*/arm64" }
    { UserName := "user", Password := "pass", RegistryToken := "tok",
      InsecureSkipTLSVerify := true, Platform := "*/arm64" }
    rfl
